import Mathlib

/-!
Shallow embedding of the relay-protocol-indexer-app core:
the identifier resolver and chain lookup (src/lib/relay-api.ts) and the
monitoring state machine (src/hooks/use-transaction-monitoring.ts).
Strings are modelled as lists of characters; JavaScript string operations
(includes, match against the concrete regex patterns, trim, toLowerCase,
parseInt) are modelled as executable functions on those lists.
-/

namespace RelayIndexer

/-- Convert a string literal to its character list. -/
def str (s : String) : List Char := s.data

/-- Model of JavaScript String.prototype.includes: pat occurs as a
contiguous substring of hay. -/
def includesL (hay pat : List Char) : Bool :=
  match hay with
  | [] => pat.isEmpty
  | _ :: t => pat.isPrefixOf hay || includesL t pat

/-- Model of JavaScript String.prototype.trim. -/
def trimChars (l : List Char) : List Char :=
  ((l.dropWhile Char.isWhitespace).reverse.dropWhile Char.isWhitespace).reverse

/-- Model of JavaScript String.prototype.toLowerCase. -/
def lowerL (l : List Char) : List Char := l.map Char.toLower

/-- Hex-digit character class of the JS regexes, [a-fA-F0-9]. -/
def isHexChar (c : Char) : Bool :=
  c.isDigit || ('a' <= c && c <= 'f') || ('A' <= c && c <= 'F')

/-- Test for the canonical transaction-hash shape, the JS regex
0x followed by exactly 64 hex characters, anchored at both ends. -/
def isCanonicalHash : List Char → Bool
  | c1 :: c2 :: t => c1 == '0' && c2 == 'x' && t.length == 64 && t.all isHexChar
  | _ => false

/-- Attempt to match one explorer pattern at the head of url: the literal
lit followed by 0x and 64 hex characters (the capture group). -/
def tryAt (lit url : List Char) : Option (List Char) :=
  if lit.isPrefixOf url then
    match url.drop lit.length with
    | c1 :: c2 :: t =>
      if c1 == '0' && c2 == 'x' && (t.take 64).length == 64 &&
          (t.take 64).all isHexChar
      then some ('0' :: 'x' :: t.take 64)
      else none
    | _ => none
  else none

/-- Leftmost match of one explorer pattern anywhere in url, as the JS
regex engine finds it for patterns of the form literal + (0x[hex]×64). -/
def scanMatch (lit : List Char) : List Char → Option (List Char)
  | [] => none
  | c :: t =>
    match tryAt lit (c :: t) with
    | some h => some h
    | none => scanMatch lit t

/-- The ordered explorer-URL pattern list of extractTxHashFromUrl, each
regex reduced to its literal part (the capture group is shared). -/
def txPatterns : List (List Char) :=
  [str "etherscan.io/tx/",
   str "sepolia.etherscan.io/tx/",
   str "goerli.etherscan.io/tx/",
   str "polygonscan.com/tx/",
   str "mumbai.polygonscan.com/tx/",
   str "arbiscan.io/tx/",
   str "nova.arbiscan.io/tx/",
   str "testnet.arbiscan.io/tx/",
   str "optimistic.etherscan.io/tx/",
   str "goerli-optimism.etherscan.io/tx/",
   str "basescan.org/tx/",
   str "goerli.basescan.org/tx/",
   str "bscscan.com/tx/",
   str "testnet.bscscan.com/tx/"]

/-- Embedding of RelayApiService.extractTxHashFromUrl: a trimmed canonical
hash is returned as is; otherwise the first matching explorer pattern
yields its capture; otherwise null. -/
def extractTxHashFromUrl (url : List Char) : Option (List Char) :=
  let t := trimChars url
  if isCanonicalHash t then some t
  else txPatterns.findSome? (fun p => scanMatch p url)

/-- The staticMappings table of getChainIdFromUrl, in insertion order. -/
def staticMappings : List (List Char × Int) :=
  [(str "etherscan.io", 1),
   (str "sepolia.etherscan.io", 11155111),
   (str "goerli.etherscan.io", 5),
   (str "polygonscan.com", 137),
   (str "mumbai.polygonscan.com", 80001),
   (str "arbiscan.io", 42161),
   (str "nova.arbiscan.io", 42170),
   (str "testnet.arbiscan.io", 421613),
   (str "optimistic.etherscan.io", 10),
   (str "goerli-optimism.etherscan.io", 420),
   (str "basescan.org", 8453),
   (str "goerli.basescan.org", 84531),
   (str "bscscan.com", 56),
   (str "testnet.bscscan.com", 97)]

/-- First static-mapping entry whose domain is a substring of the URL,
scanning the table in insertion order (the for..of loop over
Object.entries). -/
def staticLookup (url : List Char) : Option Int :=
  staticMappings.findSome? (fun e => if includesL url e.1 then some e.2 else none)

/-- Decimal value of a nonempty digit list. -/
def digitsToNat (l : List Char) : Nat :=
  l.foldl (fun acc c => acc * 10 + (c.toNat - '0'.toNat)) 0

/-- Attempt to match the regex for a chain-id path segment at the head of
the list: the literal /chain/ then one or more digits then a slash. -/
def chainAt (l : List Char) : Option Nat :=
  if (str "/chain/").isPrefixOf l then
    let r := l.drop 7
    let ds := r.takeWhile Char.isDigit
    if ds.isEmpty then none
    else
      match r.drop ds.length with
      | c :: _ => if c == '/' then some (digitsToNat ds) else none
      | [] => none
  else none

/-- Leftmost match of the /chain/<digits>/ path pattern in the URL. -/
def chainPathMatch : List Char → Option Nat
  | [] => none
  | c :: t =>
    match chainAt (c :: t) with
    | some n => some n
    | none => chainPathMatch t

/-- The Chain record of src/lib/types.ts. -/
structure Chain where
  id : List Char
  name : List Char
  displayName : List Char
  icon : Option (List Char)
  vmType : Option (List Char)
deriving DecidableEq

/-- Result of getChainIdFromUrl as observed by its caller: null, NaN
(a parseInt of a non-numeric chain id), or a number. -/
inductive ChainIdResult where
  | jsNull
  | nan
  | num (n : Int)
deriving DecidableEq

/-- Model of JavaScript parseInt on a chain-id string: skip whitespace,
optional sign, leading decimal digits; NaN when no digits. -/
def jsParseInt (l : List Char) : ChainIdResult :=
  let l := l.dropWhile Char.isWhitespace
  match l with
  | [] => .nan
  | c :: r =>
    if c == '-' then
      let ds := r.takeWhile Char.isDigit
      if ds.isEmpty then .nan else .num (-(digitsToNat ds : Int))
    else if c == '+' then
      let ds := r.takeWhile Char.isDigit
      if ds.isEmpty then .nan else .num (digitsToNat ds)
    else
      let ds := (c :: r).takeWhile Char.isDigit
      if ds.isEmpty then .nan else .num (digitsToNat ds)

/-- Chain predicate of the Arbitrum One branch of getChainIdFromUrl. -/
def arbPred (c : Chain) : Bool :=
  c.id == str "42161" ||
    (includesL (lowerL c.name) (str "arbitrum") &&
      (includesL (lowerL c.name) (str "one") || lowerL c.name == str "arbitrum"))

/-- Chain predicate of the Arbitrum Nova branch. -/
def novaPred (c : Chain) : Bool :=
  c.id == str "42170" || includesL (lowerL c.name) (str "nova")

/-- Chain predicate of the Polygon branch. -/
def polyPred (c : Chain) : Bool :=
  c.id == str "137" ||
    (includesL (lowerL c.name) (str "polygon") &&
      !includesL (lowerL c.name) (str "mumbai") &&
      !includesL (lowerL c.name) (str "test"))

/-- Chain predicate of the BSC branch. -/
def bscPred (c : Chain) : Bool :=
  c.id == str "56" || includesL (lowerL c.name) (str "bsc") ||
    includesL (lowerL c.name) (str "binance")

/-- Chain predicate of the Base branch. -/
def basePred (c : Chain) : Bool :=
  c.id == str "8453" ||
    (includesL (lowerL c.name) (str "base") &&
      !includesL (lowerL c.name) (str "goerli") &&
      !includesL (lowerL c.name) (str "test"))

/-- Chain predicate of the Optimism branch. -/
def optPred (c : Chain) : Bool :=
  c.id == str "10" ||
    (includesL (lowerL c.name) (str "optimism") &&
      !includesL (lowerL c.name) (str "goerli") &&
      !includesL (lowerL c.name) (str "test"))

/-- Chain predicate of the Ethereum branch. -/
def ethPred (c : Chain) : Bool :=
  c.id == str "1" || lowerL c.name == str "ethereum" || lowerL c.name == str "mainnet"

/-- One explorer-domain branch of the API fallback: when the URL guard
holds and the chain list has a matching entry, its id is parsed. -/
def apiStage (g : Bool) (found : Option Chain) : Option ChainIdResult :=
  if g then found.map (fun c => jsParseInt c.id) else none

/-- The chains-list fallback of getChainIdFromUrl: the sequence of
per-explorer branches, each returning early on a find, else null. -/
def apiHeuristic (url : List Char) (chains : List Chain) : ChainIdResult :=
  (apiStage (includesL url (str "arbiscan.io") && !includesL url (str "nova") &&
      !includesL url (str "testnet")) (chains.find? arbPred) <|>
   apiStage (includesL url (str "nova.arbiscan.io")) (chains.find? novaPred) <|>
   apiStage (includesL url (str "polygonscan.com") && !includesL url (str "mumbai"))
     (chains.find? polyPred) <|>
   apiStage (includesL url (str "bscscan.com") && !includesL url (str "testnet"))
     (chains.find? bscPred) <|>
   apiStage (includesL url (str "basescan.org") && !includesL url (str "goerli"))
     (chains.find? basePred) <|>
   apiStage (includesL url (str "optimistic.etherscan.io") && !includesL url (str "goerli"))
     (chains.find? optPred) <|>
   apiStage (includesL url (str "etherscan.io") && !includesL url (str "sepolia") &&
      !includesL url (str "goerli")) (chains.find? ethPred)).getD ChainIdResult.jsNull

/-- Embedding of RelayApiService.getChainIdFromUrl: static substring table
first, then the /chain/<id>/ path pattern, then the fetched chain list
(chainsFetch is none when getChains throws; the catch yields null). -/
def getChainIdFromUrl (url : List Char) (chainsFetch : Option (List Chain)) :
    ChainIdResult :=
  match staticLookup url with
  | some cid => .num cid
  | none =>
    match chainPathMatch url with
    | some d => .num (Int.ofNat d)
    | none =>
      match chainsFetch with
      | none => .jsNull
      | some chains => apiHeuristic url chains

/-- Parsed shape of a non-2xx response body as makeRequest observes it:
a JSON object with the three optional fields it inspects, a JSON string,
some other JSON value, a body that fails JSON parsing, or a body whose
text could not be read at all. -/
inductive ErrorBody where
  | jsonObj (message errField details : Option (List Char))
  | jsonStr (s : List Char)
  | jsonOther
  | notJson (raw : List Char)
  | unreadable
deriving DecidableEq

/-- JavaScript truthiness of an optional string field: present and
nonempty. -/
def jsTruthy : Option (List Char) → Bool
  | some (_ :: _) => true
  | _ => false

/-- Decimal rendering of a number for message interpolation. -/
def natToChars (n : Nat) : List Char := (Nat.repr n).data

/-- The default message of makeRequest for a failed response. -/
def genericMsg (status : Nat) (statusText : List Char) : List Char :=
  str "API request failed: " ++ natToChars status ++ [' '] ++ statusText

/-- Error-message construction of makeRequest for a non-ok response:
message field, else error field, else details field, else a JSON string
body verbatim; the raw text of an unparsable body is appended to the
generic message; otherwise the generic message alone. -/
def errorMessageFor (status : Nat) (statusText : List Char) (body : ErrorBody) :
    List Char :=
  let g := genericMsg status statusText
  match body with
  | .jsonObj m e d =>
    if jsTruthy m then m.getD []
    else if jsTruthy e then e.getD []
    else if jsTruthy d then d.getD []
    else g
  | .jsonStr s => s
  | .jsonOther => g
  | .notJson raw => if raw.isEmpty then g else g ++ str " - " ++ raw
  | .unreadable => g

/-- Observable shape of an upstream HTTP response, as makeRequest
consumes it. -/
structure JsResponse (α : Type) where
  ok : Bool
  status : Nat
  statusText : List Char
  errBody : ErrorBody
  jsonContentType : Bool
  jsonValue : α

/-- Value returned by makeRequest on success: parsed JSON data, or the
generic success marker for a non-JSON body. -/
inductive MakeRequestResult (α : Type) where
  | data (a : α)
  | successMarker
deriving DecidableEq

/-- Embedding of RelayApiService.makeRequest: a non-ok status throws the
constructed message; an ok response yields its JSON value, or the success
marker when the content type is not JSON. -/
def makeRequest {α : Type} (r : JsResponse α) :
    Except (List Char) (MakeRequestResult α) :=
  if !r.ok then .error (errorMessageFor r.status r.statusText r.errBody)
  else if r.jsonContentType then .ok (.data r.jsonValue)
  else .ok .successMarker

/-- Request body sent to the force-index endpoint, with the hash field
renamed to txHash as indexTransaction does. -/
structure IndexRequestBody where
  txHash : List Char
  chainId : Int
deriving DecidableEq

/-- Embedding of the local validation and body construction of
indexTransaction, everything that happens before the network request: the
hash must be nonempty (JS truthiness), 0x-prefixed and of length 66, and
the chainId must be truthy (nonzero; Number.isInteger always holds for an
integer model). On pass, the body sent upstream is returned. -/
def indexTransaction (hash : List Char) (chainId : Int) :
    Except (List Char) IndexRequestBody :=
  if hash.isEmpty || !(str "0x").isPrefixOf hash || hash.length != 66 then
    .error (str "Invalid hash format: " ++ hash ++
      str ". Expected 0x followed by 64 hex characters.")
  else if chainId == 0 then
    .error (str "Invalid chainId: " ++ (Int.repr chainId).data ++
      str ". Expected a valid integer.")
  else
    .ok { txHash := hash, chainId := chainId }

/-- The RequestStatusResponse record of src/lib/types.ts; requestId is
the field stitched back in by getRequestStatus, times as Nat. -/
structure RequestStatusResponse where
  requestId : List Char
  status : List Char
  inTxHashes : List (List Char)
  txHashes : List (List Char)
  updatedAt : Nat
  originChainId : Int
  destinationChainId : Int
deriving DecidableEq

/-- The TransactionRequest record of src/lib/types.ts, the fields the
hook reads (id is optional to model a malformed upstream record; the
opaque data payload is omitted). -/
structure TransactionRequest where
  id : Option (List Char)
  status : List Char
  user : List Char
  recipient : List Char
  createdAt : List Char
  updatedAt : List Char
deriving DecidableEq

/-- The MonitoringState record of src/lib/types.ts, times as Nat. -/
structure MonitoringState where
  isMonitoring : Bool
  transactionHash : List Char
  requestId : Option (List Char)
  lastChecked : Option Nat
  error : Option (List Char)
  transactionDetails : Option RequestStatusResponse
deriving DecidableEq

/-- The React state owned by useTransactionMonitoring. -/
structure HookState where
  monitoringState : Option MonitoringState
  isLoading : Bool
  error : Option (List Char)
  pollCount : Nat
deriving DecidableEq

/-- Outcome of one check cycle (checkTransactionStatus) as its callers
see it: a status found, a null, or a thrown error with its message. -/
inductive CheckOutcome where
  | found (d : RequestStatusResponse)
  | noResult
  | errored (msg : List Char)
deriving DecidableEq

/-- Embedding of checkTransactionStatus: an empty request list or an
id-less first entry yields null; otherwise the status for the first
entry's id is fetched (statusFetch models getRequestStatus); a throw is
rethrown. -/
def checkTransactionStatus (requests : List TransactionRequest)
    (statusFetch : List Char → Except (List Char) RequestStatusResponse) :
    Except (List Char) (Option RequestStatusResponse) :=
  match requests with
  | [] => .ok none
  | latest :: _ =>
    if !jsTruthy latest.id then .ok none
    else
      match statusFetch (latest.id.getD []) with
      | .ok d => .ok (some d)
      | .error e => .error e

/-- The polling constants of the hook. -/
def POLLING_INTERVAL : Nat := 2 * 1000

/-- Number of fast polls before the slow interval takes over. -/
def MAX_FAST_POLLS : Nat := 30

/-- The slow polling interval. -/
def SLOW_POLLING_INTERVAL : Nat := 10 * 1000

/-- Interval selection of the polling effect for a given pollCount. -/
def currentInterval (pollCount : Nat) : Nat :=
  if pollCount < MAX_FAST_POLLS then POLLING_INTERVAL else SLOW_POLLING_INTERVAL

/-- Guard of the polling effect: a session exists, it is monitoring, and
its transaction hash is truthy. -/
def pollingActive (s : HookState) : Bool :=
  match s.monitoringState with
  | none => false
  | some m => m.isMonitoring && !m.transactionHash.isEmpty

/-- State update applied by the interval callback of the polling effect:
on a status, fold it in (functional update, inert when the session is
gone), deactivate and reset pollCount; on null, bump lastChecked and
increment pollCount; on a throw, only increment pollCount. -/
def pollTick (co : CheckOutcome) (now : Nat) (s : HookState) : HookState :=
  match co with
  | .found d =>
    { s with
      monitoringState := s.monitoringState.map (fun m =>
        { m with
          requestId := some d.requestId
          transactionDetails := some d
          isMonitoring := false
          lastChecked := some now })
      pollCount := 0 }
  | .noResult =>
    { s with
      monitoringState := s.monitoringState.map (fun m =>
        { m with lastChecked := some now })
      pollCount := s.pollCount + 1 }
  | .errored _ => { s with pollCount := s.pollCount + 1 }

/-- Embedding of manualRefresh: a missing session or falsy hash returns
unchanged; otherwise one check cycle runs with the loading flag raised
and lowered again: a status is folded in with lastChecked updated and the
session deactivated, a null only updates lastChecked, a throw sets the
raw error message. pollCount is never touched. -/
def manualRefresh (co : CheckOutcome) (now : Nat) (s : HookState) : HookState :=
  match s.monitoringState with
  | none => s
  | some m =>
    if m.transactionHash.isEmpty then s
    else
      match co with
      | .found d =>
        { s with
          error := none
          isLoading := false
          monitoringState := some { m with
            lastChecked := some now
            requestId := some d.requestId
            transactionDetails := some d
            isMonitoring := false } }
      | .noResult =>
        { s with
          error := none
          isLoading := false
          monitoringState := some { m with lastChecked := some now } }
      | .errored msg =>
        { s with error := some msg, isLoading := false }

/-- Embedding of stopMonitoring: session discarded, error cleared,
pollCount reset; the loading flag is not touched. -/
def stopMonitoring (s : HookState) : HookState :=
  { s with monitoringState := none, error := none, pollCount := 0 }

/-- Message thrown by startMonitoring when no hash can be extracted. -/
def invalidUrlMsg : List Char :=
  str "Invalid transaction URL. Please provide a valid blockchain explorer URL (e.g., Etherscan, Polygonscan, Arbiscan, HyperEVM, etc.)"

/-- Message thrown by startMonitoring when no chain id is determined. -/
def chainIdErrMsg : List Char :=
  str "Could not determine chain ID from URL. Please use a supported blockchain explorer (Etherscan, Arbiscan, Polygonscan, etc.) or check that the URL is correct."

/-- The not-found category message of the startMonitoring catch block. -/
def txNotFoundMsg : List Char :=
  str "Transaction not found. Please ensure the transaction URL is correct and the transaction exists on the blockchain."

/-- The bad-request category message of the startMonitoring catch block. -/
def invalidRequestMsg : List Char :=
  str "Invalid request. Please check that the transaction URL is from a supported blockchain explorer."

/-- The server-unavailable category message of the catch block. -/
def serviceUnavailableMsg : List Char :=
  str "Relay service is temporarily unavailable. Please try again in a few minutes."

/-- The network category message of the startMonitoring catch block. -/
def networkedErrMsg : List Char :=
  str "Network error. Please check your internet connection and try again."

/-- The error classification of the startMonitoring catch block:
substring tests over the thrown message, falling back to the message. -/
def classifyStartError (m : List Char) : List Char :=
  if includesL m (str "404") then txNotFoundMsg
  else if includesL m (str "400") then invalidRequestMsg
  else if includesL m (str "500") then serviceUnavailableMsg
  else if includesL m (str "Network") then networkedErrMsg
  else m

/-- JavaScript truthiness of the getChainIdFromUrl result as tested by
the check in startMonitoring: null, NaN and 0 are falsy. -/
def chainIdTruthy : ChainIdResult → Bool
  | .num n => n != 0
  | _ => false

/-- Numeric value of a truthy chain-id result. -/
def chainIdValue : ChainIdResult → Int
  | .num n => n
  | _ => 0

/-- State after the catch block of startMonitoring: classified error set,
session discarded, pollCount reset, loading lowered. -/
def startCatch (m : List Char) (s : HookState) : HookState :=
  { s with
    error := some (classifyStartError m)
    monitoringState := none
    pollCount := 0
    isLoading := false }

/-- Embedding of startMonitoring. Network effects are oracle parameters:
chainsFetch is the getChains outcome inside getChainIdFromUrl, submitNet
the network outcome of the force-index POST once its local validation
passed, co the outcome of the immediate check. The Bool of the result
records whether indexTransaction was invoked at all. -/
def startMonitoring (url : List Char) (chainsFetch : Option (List Chain))
    (submitNet : Except (List Char) Unit) (co : CheckOutcome) (now : Nat)
    (s : HookState) : HookState × Bool :=
  let s0 : HookState := { s with isLoading := true, error := none, pollCount := 0 }
  match extractTxHashFromUrl url with
  | none => (startCatch invalidUrlMsg s0, false)
  | some txHash =>
    let cid := getChainIdFromUrl url chainsFetch
    if !chainIdTruthy cid then (startCatch chainIdErrMsg s0, false)
    else
      let ms : MonitoringState :=
        { isMonitoring := true
          transactionHash := txHash
          requestId := none
          lastChecked := some now
          error := none
          transactionDetails := none }
      let s1 : HookState := { s0 with monitoringState := some ms }
      match indexTransaction txHash (chainIdValue cid) with
      | .error m => (startCatch m s1, true)
      | .ok _ =>
        match submitNet with
        | .error m => (startCatch m s1, true)
        | .ok _ =>
          match co with
          | .found d =>
            ({ s1 with
                isLoading := false
                monitoringState := s1.monitoringState.map (fun m =>
                  { m with
                    requestId := some d.requestId
                    transactionDetails := some d
                    isMonitoring := false }) }, true)
          | .noResult => ({ s1 with isLoading := false }, true)
          | .errored m => (startCatch m s1, true)

/-- Remainder of the list after the first occurrence of pat, when pat
occurs at all. -/
def afterSub (pat : List Char) : List Char → Option (List Char)
  | [] => if pat.isEmpty then some [] else none
  | c :: t =>
    if pat.isPrefixOf (c :: t) then some ((c :: t).drop pat.length)
    else afterSub pat t

/-- Modelled from the spec: the host portion of a URL, the text after the
scheme separator up to the next slash. -/
def hostOf (url : List Char) : List Char :=
  match afterSub (str "://") url with
  | some r => r.takeWhile (fun c => c != '/')
  | none => url.takeWhile (fun c => c != '/')

/-- Modelled from the spec: the chain-id lookup procedure described by
claim C5. Stage 1 asks the chain directory, given as (explorer host, id)
pairs, for the entry whose explorer host is a substring of the URL host,
an exact host match preferred; stage 2 accepts the static-table result
only when that id is in the directory's supported set; stage 3 accepts a
numeric /chain/<id>/ path id under the same condition. -/
def specChainIdLookup (url : List Char) (dir : List (List Char × Int)) :
    Option Int :=
  let host := hostOf url
  let supported := dir.map (fun e => e.2)
  match dir.find? (fun e => e.1 == host) with
  | some e => some e.2
  | none =>
    match dir.find? (fun e => includesL host e.1) with
    | some e => some e.2
    | none =>
      match staticLookup url with
      | some c => if supported.contains c then some c else none
      | none =>
        match chainPathMatch url with
        | some d =>
          if supported.contains (Int.ofNat d) then some (Int.ofNat d) else none
        | none => none

/-- Modelled from the spec: the message-selection order claim C7
describes over the error body: message field, else error field, else
details field, else the raw body text, and the generic status message
only when none of these is available. -/
def claimErrorMessage (status : Nat) (statusText : List Char) (body : ErrorBody) :
    List Char :=
  match body with
  | .jsonObj m e d =>
    if jsTruthy m then m.getD []
    else if jsTruthy e then e.getD []
    else if jsTruthy d then d.getD []
    else genericMsg status statusText
  | .jsonStr s => s
  | .jsonOther => genericMsg status statusText
  | .notJson raw => if raw.isEmpty then genericMsg status statusText else raw
  | .unreadable => genericMsg status statusText

/-- Concrete canonical hash used by witnesses and counterexamples. -/
def hashA : List Char :=
  str "0xaaaaaaaaaaaaaaaaaaaaaaaaaaaaaaaaaaaaaaaaaaaaaaaaaaaaaaaaaaaaaaaa"

/-- Concrete mainnet explorer URL carrying hashA. -/
def urlA : List Char :=
  str "https://etherscan.io/tx/0xaaaaaaaaaaaaaaaaaaaaaaaaaaaaaaaaaaaaaaaaaaaaaaaaaaaaaaaaaaaaaaaa"

/-- Concrete Mumbai explorer URL carrying hashA. -/
def urlM : List Char :=
  str "https://mumbai.polygonscan.com/tx/0xaaaaaaaaaaaaaaaaaaaaaaaaaaaaaaaaaaaaaaaaaaaaaaaaaaaaaaaaaaaaaaaa"

/-- Concrete Sepolia explorer URL carrying hashA. -/
def urlS : List Char :=
  str "https://sepolia.etherscan.io/tx/0xaaaaaaaaaaaaaaaaaaaaaaaaaaaaaaaaaaaaaaaaaaaaaaaaaaaaaaaaaaaaaaaa"

/-- A 0x-prefixed 66-character string whose tail is not hexadecimal. -/
def zedHash : List Char :=
  str "0xzzzzzzzzzzzzzzzzzzzzzzzzzzzzzzzzzzzzzzzzzzzzzzzzzzzzzzzzzzzzzzzz"

/-- Concrete status details used by witnesses and counterexamples. -/
def detailsA : RequestStatusResponse :=
  { requestId := str "req-1"
    status := str "success"
    inTxHashes := [hashA]
    txHashes := []
    updatedAt := 5
    originChainId := 1
    destinationChainId := 10 }

/-- Concrete active session used by witnesses and counterexamples. -/
def sessA : MonitoringState :=
  { isMonitoring := true
    transactionHash := hashA
    requestId := none
    lastChecked := some 0
    error := none
    transactionDetails := none }

/-- Concrete hook state with an active session and three stalled polls. -/
def stA : HookState :=
  { monitoringState := some sessA
    isLoading := false
    error := none
    pollCount := 3 }

/-- Concrete hook state caught mid-refresh: loading raised, polls
accumulated. -/
def stB : HookState :=
  { monitoringState := some sessA
    isLoading := true
    error := some (str "previous")
    pollCount := 7 }

/-- Concrete idle hook state. -/
def stIdle : HookState :=
  { monitoringState := none
    isLoading := false
    error := none
    pollCount := 0 }

theorem mem_of_isPrefixOf {l m : List Char} {c : Char}
    (h : l.isPrefixOf m = true) (hc : c ∈ l) : c ∈ m := by
  induction l generalizing m with
  | nil => cases hc
  | cons a as ih =>
    cases m with
    | nil => simp [List.isPrefixOf] at h
    | cons b bs =>
      simp only [List.isPrefixOf, Bool.and_eq_true, beq_iff_eq] at h
      rcases List.mem_cons.mp hc with rfl | hc2
      · rw [h.1]; exact List.mem_cons_self _ _
      · exact List.mem_cons_of_mem _ (ih h.2 hc2)

theorem includes_of_isPrefixOf {b h : List Char} (hp : b.isPrefixOf h = true) :
    includesL h b = true := by
  cases h with
  | nil =>
    cases b with
    | nil => rfl
    | cons x xs => simp [List.isPrefixOf] at hp
  | cons c t => simp [includesL, hp]

theorem includes_of_prefix_append {a b h : List Char}
    (hp : (a ++ b).isPrefixOf h = true) : includesL h b = true := by
  induction a generalizing h with
  | nil => exact includes_of_isPrefixOf (by simpa using hp)
  | cons x a ih =>
    cases h with
    | nil => simp [List.isPrefixOf] at hp
    | cons y t =>
      simp only [List.cons_append, List.isPrefixOf, Bool.and_eq_true] at hp
      have hin := ih hp.2
      simp [includesL, hin]

theorem includes_append_right {a b h : List Char}
    (hi : includesL h (a ++ b) = true) : includesL h b = true := by
  induction h with
  | nil =>
    simp only [includesL, List.isEmpty_iff, List.append_eq_nil] at hi ⊢
    exact hi.2
  | cons c t ih =>
    simp only [includesL, Bool.or_eq_true] at hi ⊢
    rcases hi with hp | hi2
    · have hin := includes_of_prefix_append hp
      simpa only [includesL, Bool.or_eq_true] using hin
    · exact Or.inr (ih hi2)

theorem mem_of_includes {hay pat : List Char} {c : Char}
    (h : includesL hay pat = true) (hc : c ∈ pat) : c ∈ hay := by
  induction hay with
  | nil =>
    simp only [includesL, List.isEmpty_iff] at h
    subst h; cases hc
  | cons a t ih =>
    simp only [includesL, Bool.or_eq_true] at h
    rcases h with hp | h2
    · exact mem_of_isPrefixOf hp hc
    · exact List.mem_cons_of_mem _ (ih h2)

theorem not_includes_of_not_mem {hay pat : List Char} {c : Char}
    (hc : c ∈ pat) (hn : c ∉ hay) : includesL hay pat = false := by
  cases hi : includesL hay pat
  · rfl
  · exact absurd (mem_of_includes hi hc) hn

theorem dropWhile_eq_self_of {p : Char → Bool} {l : List Char}
    (h : ∀ c ∈ l, p c = false) : l.dropWhile p = l := by
  cases l with
  | nil => rfl
  | cons a t => simp [List.dropWhile_cons, h a (List.mem_cons_self _ _)]

theorem trim_of_no_ws {l : List Char} (h : ∀ c ∈ l, c.isWhitespace = false) :
    trimChars l = l := by
  have d1 : l.dropWhile Char.isWhitespace = l := dropWhile_eq_self_of h
  have d2 : l.reverse.dropWhile Char.isWhitespace = l.reverse :=
    dropWhile_eq_self_of (fun c hc => h c (List.mem_reverse.mp hc))
  simp [trimChars, d1, d2]

theorem hexChar_not_ws {c : Char} (h : isHexChar c = true) :
    c.isWhitespace = false := by
  cases hws : c.isWhitespace
  · rfl
  · exfalso
    simp only [Char.isWhitespace, Bool.or_eq_true, decide_eq_true_eq] at hws
    rcases hws with ((rfl | rfl) | rfl) | rfl <;> exact absurd h (by decide)

theorem canonical_chars {l : List Char} (hc : isCanonicalHash l = true) :
    ∀ c ∈ l, c = '0' ∨ c = 'x' ∨ isHexChar c = true := by
  cases l with
  | nil => simp [isCanonicalHash] at hc
  | cons c1 r =>
    cases r with
    | nil => simp [isCanonicalHash] at hc
    | cons c2 t =>
      simp only [isCanonicalHash, Bool.and_eq_true, beq_iff_eq,
        List.all_eq_true] at hc
      obtain ⟨⟨⟨h1, h2⟩, _⟩, hall⟩ := hc
      intro c hcl
      rcases List.mem_cons.mp hcl with rfl | hcl2
      · exact Or.inl h1
      · rcases List.mem_cons.mp hcl2 with rfl | hcl3
        · exact Or.inr (Or.inl h2)
        · exact Or.inr (Or.inr (hall c hcl3))

theorem canonical_no_ws {l : List Char} (hc : isCanonicalHash l = true) :
    ∀ c ∈ l, c.isWhitespace = false := by
  intro c hm
  rcases canonical_chars hc c hm with rfl | rfl | hh
  · decide
  · decide
  · exact hexChar_not_ws hh

theorem canonical_not_mem {l : List Char} (hc : isCanonicalHash l = true)
    {c : Char} (h0 : c ≠ '0') (hx : c ≠ 'x') (hh : isHexChar c = false) :
    c ∉ l := by
  intro hm
  rcases canonical_chars hc c hm with rfl | rfl | hhex
  · exact h0 rfl
  · exact hx rfl
  · simp [hh] at hhex

theorem canonical_shape {l : List Char} (hc : isCanonicalHash l = true) :
    l.length = 66 ∧ (str "0x").isPrefixOf l = true ∧ l.isEmpty = false := by
  cases l with
  | nil => simp [isCanonicalHash] at hc
  | cons c1 r =>
    cases r with
    | nil => simp [isCanonicalHash] at hc
    | cons c2 t =>
      simp only [isCanonicalHash, Bool.and_eq_true, beq_iff_eq] at hc
      obtain ⟨⟨⟨h1, h2⟩, hlen⟩, _⟩ := hc
      subst h1; subst h2
      refine ⟨by simp [hlen], ?_, rfl⟩
      rw [show str "0x" = ['0', 'x'] from rfl]
      simp [List.isPrefixOf]

theorem extract_of_canonical {l : List Char} (hc : isCanonicalHash l = true) :
    extractTxHashFromUrl l = some l := by
  have ht : trimChars l = l := trim_of_no_ws (canonical_no_ws hc)
  simp [extractTxHashFromUrl, ht, hc]

theorem tryAt_canonical {lit url h : List Char} (ht : tryAt lit url = some h) :
    isCanonicalHash h = true := by
  unfold tryAt at ht
  split at ht
  · split at ht
    · split at ht
      · rename_i hcond
        injection ht with ht2
        subst ht2
        simp only [Bool.and_eq_true] at hcond
        simp only [isCanonicalHash, hcond.1.2, hcond.2]
        simp
      · cases ht
    · cases ht
  · cases ht

theorem scanMatch_canonical {lit url h : List Char}
    (hs : scanMatch lit url = some h) : isCanonicalHash h = true := by
  induction url with
  | nil => simp [scanMatch] at hs
  | cons c t ih =>
    rw [scanMatch] at hs
    cases hta : tryAt lit (c :: t) with
    | some g =>
      rw [hta] at hs
      injection hs with h2
      subst h2
      exact tryAt_canonical hta
    | none =>
      rw [hta] at hs
      exact ih hs

theorem extract_result_canonical {url h : List Char}
    (he : extractTxHashFromUrl url = some h) : isCanonicalHash h = true := by
  unfold extractTxHashFromUrl at he
  by_cases hc : isCanonicalHash (trimChars url) = true
  · simp only [hc, if_true, Option.some_inj] at he
    subst he
    exact hc
  · simp only [hc, if_false, Bool.false_eq_true, ite_false] at he
    obtain ⟨p, _, hm⟩ := List.exists_of_findSome?_eq_some he
    exact scanMatch_canonical hm

theorem findSome?_none_of_dot {l : List Char} (h : '.' ∉ l)
    (ms : List (List Char × Int)) (hms : ∀ e ∈ ms, '.' ∈ e.1) :
    ms.findSome? (fun e => if includesL l e.1 then some e.2 else none) = none := by
  induction ms with
  | nil => rfl
  | cons e es ih =>
    have hdot : '.' ∈ e.1 := hms e (List.mem_cons_self _ _)
    have hfalse : includesL l e.1 = false := not_includes_of_not_mem hdot h
    simp [List.findSome?, hfalse,
      ih (fun x hx => hms x (List.mem_cons_of_mem _ hx))]

theorem staticLookup_none_hash {l : List Char} (h : '.' ∉ l) :
    staticLookup l = none :=
  findSome?_none_of_dot h staticMappings (by decide)

theorem chainAt_none {l : List Char} (h : '/' ∉ l) : chainAt l = none := by
  have hpre : (str "/chain/").isPrefixOf l = false := by
    cases hp : (str "/chain/").isPrefixOf l
    · rfl
    · exact absurd (mem_of_isPrefixOf hp (by decide)) h
  simp [chainAt, hpre]

theorem chainPathMatch_none {l : List Char} (h : '/' ∉ l) :
    chainPathMatch l = none := by
  induction l with
  | nil => rfl
  | cons c t ih =>
    have h1 : chainAt (c :: t) = none := chainAt_none h
    have ht : '/' ∉ t := fun hm => h (List.mem_cons_of_mem _ hm)
    simp [chainPathMatch, h1, ih ht]

theorem apiHeuristic_null_hash {l : List Char} (h : '.' ∉ l)
    (chains : List Chain) : apiHeuristic l chains = ChainIdResult.jsNull := by
  have k : ∀ dom : List Char, '.' ∈ dom → includesL l dom = false :=
    fun dom hd => not_includes_of_not_mem hd h
  have k1 := k (str "arbiscan.io") (by decide)
  have k2 := k (str "nova.arbiscan.io") (by decide)
  have k3 := k (str "polygonscan.com") (by decide)
  have k4 := k (str "bscscan.com") (by decide)
  have k5 := k (str "basescan.org") (by decide)
  have k6 := k (str "optimistic.etherscan.io") (by decide)
  have k7 := k (str "etherscan.io") (by decide)
  simp [apiHeuristic, apiStage, Option.orElse, k1, k2, k3, k4, k5, k6, k7]

theorem getChainIdFromUrl_hash {l : List Char} (hc : isCanonicalHash l = true)
    (cf : Option (List Chain)) :
    getChainIdFromUrl l cf = ChainIdResult.jsNull := by
  have hdot : '.' ∉ l := canonical_not_mem hc (by decide) (by decide) (by decide)
  have hsl : '/' ∉ l := canonical_not_mem hc (by decide) (by decide) (by decide)
  cases cf with
  | none =>
    simp [getChainIdFromUrl, staticLookup_none_hash hdot, chainPathMatch_none hsl]
  | some chains =>
    simp [getChainIdFromUrl, staticLookup_none_hash hdot, chainPathMatch_none hsl,
      apiHeuristic_null_hash hdot chains]

theorem staticLookup_ether {url : List Char}
    (h : includesL url (str "etherscan.io") = true) :
    staticLookup url = some 1 := by
  simp [staticLookup, staticMappings, List.findSome?, h]

theorem staticLookup_shadowed {url : List Char} {v : Int} {a : List Char}
    (hne : v ≠ 1)
    (hv : ∀ e ∈ staticMappings, e.2 = v → e.1 = a ++ str "etherscan.io") :
    staticLookup url ≠ some v := by
  intro hsl
  have hsl2 : staticMappings.findSome?
      (fun e => if includesL url e.1 then some e.2 else none) = some v := hsl
  obtain ⟨e, he, hfe⟩ := List.exists_of_findSome?_eq_some hsl2
  have hsplit : includesL url e.1 = true ∧ e.2 = v := by
    by_cases hi : includesL url e.1 = true
    · simp only [hi, if_true, Option.some_inj] at hfe
      exact ⟨hi, hfe⟩
    · simp [hi] at hfe
  obtain ⟨hi, hev⟩ := hsplit
  rw [hv e he hev] at hi
  have h2 := staticLookup_ether (includes_append_right hi)
  rw [hsl] at h2
  injection h2 with h3
  exact hne h3

theorem indexTransaction_pass {h : List Char} {c : Int}
    (hc : isCanonicalHash h = true) (hnz : c ≠ 0) :
    indexTransaction h c = .ok { txHash := h, chainId := c } := by
  obtain ⟨hlen, hpre, hne⟩ := canonical_shape hc
  simp [indexTransaction, hlen, hpre, hne, hnz]

theorem chainIdValue_ne_zero {r : ChainIdResult} (h : chainIdTruthy r = true) :
    chainIdValue r ≠ 0 := by
  cases r with
  | jsNull => simp [chainIdTruthy] at h
  | nan => simp [chainIdTruthy] at h
  | num n =>
    simp only [chainIdTruthy, bne_iff_ne, ne_eq] at h
    simpa [chainIdValue] using h

theorem startMonitoring_pollCount (url : List Char) (cf : Option (List Chain))
    (sn : Except (List Char) Unit) (co : CheckOutcome) (now : Nat)
    (s : HookState) : ((startMonitoring url cf sn co now s).1).pollCount = 0 := by
  cases hE : extractTxHashFromUrl url with
  | none => simp [startMonitoring, hE, startCatch]
  | some h =>
    cases hC : chainIdTruthy (getChainIdFromUrl url cf) with
    | false => simp [startMonitoring, hE, hC, startCatch]
    | true =>
      cases hI : indexTransaction h (chainIdValue (getChainIdFromUrl url cf)) with
      | error m => simp [startMonitoring, hE, hC, hI, startCatch]
      | ok b =>
        cases sn with
        | error m => simp [startMonitoring, hE, hC, hI, startCatch]
        | ok u =>
          cases co with
          | found d => simp [startMonitoring, hE, hC, hI]
          | noResult => simp [startMonitoring, hE, hC, hI]
          | errored m => simp [startMonitoring, hE, hC, hI, startCatch]

theorem manualRefresh_pollCount (co : CheckOutcome) (now : Nat) (s : HookState) :
    (manualRefresh co now s).pollCount = s.pollCount := by
  cases hm : s.monitoringState with
  | none => simp [manualRefresh, hm]
  | some m =>
    cases he : m.transactionHash.isEmpty with
    | true => simp [manualRefresh, hm, he]
    | false => cases co <;> simp [manualRefresh, hm, he]

theorem pollTick_pollCount (co : CheckOutcome) (now : Nat) (s : HookState) :
    (pollTick co now s).pollCount =
      match co with
      | .found _ => 0
      | _ => s.pollCount + 1 := by
  cases co <;> rfl

theorem startMonitoring_submit_error {url h : List Char}
    {cf : Option (List Chain)} (m : List Char) (co : CheckOutcome) (now : Nat)
    (s : HookState) (hE : extractTxHashFromUrl url = some h)
    (hC : chainIdTruthy (getChainIdFromUrl url cf) = true) :
    (startMonitoring url cf (.error m) co now s).1 =
      { monitoringState := none, isLoading := false,
        error := some (classifyStartError m), pollCount := 0 } := by
  have hcanon := extract_result_canonical hE
  have hnz := chainIdValue_ne_zero hC
  have hI := indexTransaction_pass hcanon hnz
  simp [startMonitoring, hE, hC, hI, startCatch]

theorem startMonitoring_bare_hash {hash : List Char}
    (hc : isCanonicalHash hash = true) (cf : Option (List Chain))
    (sn : Except (List Char) Unit) (co : CheckOutcome) (now : Nat)
    (s : HookState) :
    startMonitoring hash cf sn co now s =
      ({ monitoringState := none, isLoading := false,
         error := some chainIdErrMsg, pollCount := 0 }, false) := by
  have hE : extractTxHashFromUrl hash = some hash := extract_of_canonical hc
  have hG : getChainIdFromUrl hash cf = ChainIdResult.jsNull :=
    getChainIdFromUrl_hash hc cf
  have hclass : classifyStartError chainIdErrMsg = chainIdErrMsg := by decide
  simp [startMonitoring, hE, hG, startCatch, chainIdTruthy, hclass]

/-- C1 counterexample: manualRefresh succeeds (a status is newly obtained
and folded into the session) yet the poll counter stays at 3 instead of
being reset to 0, refuting the claim that every operation folding in a
newly obtained status sets the counter to 0. -/
theorem pollCount_manualRefresh_counterexample :
    ((manualRefresh (.found detailsA) 1 stA).monitoringState.map
        (fun m => m.transactionDetails)) = some (some detailsA) ∧
    (manualRefresh (.found detailsA) 1 stA).pollCount ≠ 0 := by decide

/-- C1 (amended): the poll counter never decreases except by a reset to
0; the polling loop's success path resets it to 0, its failed and empty
paths increment it by exactly one; manualRefresh never modifies it, even
when it newly obtains a status; startMonitoring always finishes with it
at 0, and stopMonitoring resets it to 0 without any status obtained. -/
theorem pollCount_evolution :
    (∀ co now s, (pollTick co now s).pollCount =
        match co with
        | .found _ => 0
        | _ => s.pollCount + 1) ∧
    (∀ co now s, (manualRefresh co now s).pollCount = s.pollCount) ∧
    (∀ s, (stopMonitoring s).pollCount = 0) ∧
    (∀ url cf sn co now s,
        ((startMonitoring url cf sn co now s).1).pollCount = 0) ∧
    (∀ co now s, (pollTick co now s).pollCount = 0 ∨
        s.pollCount ≤ (pollTick co now s).pollCount) :=
  ⟨pollTick_pollCount, manualRefresh_pollCount, fun _ => rfl,
   fun url cf sn co now s => startMonitoring_pollCount url cf sn co now s,
   fun co now s => by cases co <;> simp [pollTick]⟩

/-- C2: the interval chosen for the next tick is the short 2-second
interval exactly when pollCount < 30 and the long 10-second interval from
attempt 31 onward, and a tick's effect on the attempt count does not
depend on the chosen interval: only a found result resets the count,
every other tick increments it by one. -/
theorem pollInterval_schedule :
    (∀ n : Nat, n < MAX_FAST_POLLS → currentInterval n = POLLING_INTERVAL) ∧
    (∀ n : Nat, MAX_FAST_POLLS ≤ n → currentInterval n = SLOW_POLLING_INTERVAL) ∧
    (POLLING_INTERVAL = 2 * 1000 ∧ SLOW_POLLING_INTERVAL = 10 * 1000 ∧
      MAX_FAST_POLLS = 30) ∧
    (∀ co now s, (pollTick co now s).pollCount =
        match co with
        | .found _ => 0
        | _ => s.pollCount + 1) := by
  refine ⟨?_, ?_, by decide, pollTick_pollCount⟩
  · intro n h; simp [currentInterval, h]
  · intro n h; simp [currentInterval, Nat.not_lt.mpr h]

/-- Witness for pollInterval_schedule at attempt counts 0, 29 and 30 and
at one concrete empty tick. -/
theorem pollInterval_schedule_witness :
    currentInterval 0 = POLLING_INTERVAL ∧
    currentInterval 29 = POLLING_INTERVAL ∧
    currentInterval 30 = SLOW_POLLING_INTERVAL ∧
    (pollTick CheckOutcome.noResult 2 stA).pollCount = stA.pollCount + 1 :=
  ⟨pollInterval_schedule.1 0 (by decide),
   pollInterval_schedule.1 29 (by decide),
   pollInterval_schedule.2.1 30 (by decide),
   pollInterval_schedule.2.2.2 CheckOutcome.noResult 2 stA⟩

/-- C3 counterexample: at a state caught mid-refresh, stop() leaves the
loading flag raised, and a late empty tick arriving after stop() bumps
pollCount from 0 to 1, so the cleared state does not stay cleared. -/
theorem stop_counterexample :
    (stopMonitoring stB).isLoading = true ∧
    pollTick .noResult 9 (stopMonitoring stB) ≠ stopMonitoring stB ∧
    (pollTick .noResult 9 (stopMonitoring stB)).pollCount = 1 := by decide

/-- C3 (amended): stop() unconditionally discards the session, clears the
error flag and resets pollCount, but leaves the loading flag untouched;
after stop(), no late tick can resurrect the session or set an error, and
a late successful tick leaves the cleared state entirely unchanged, but a
late empty or failed tick increments pollCount from 0 to 1. -/
theorem stop_and_late_ticks (s : HookState) :
    (stopMonitoring s).monitoringState = none ∧
    (stopMonitoring s).error = none ∧
    (stopMonitoring s).pollCount = 0 ∧
    (stopMonitoring s).isLoading = s.isLoading ∧
    (∀ d now, pollTick (.found d) now (stopMonitoring s) = stopMonitoring s) ∧
    (∀ co now, (pollTick co now (stopMonitoring s)).monitoringState = none ∧
        (pollTick co now (stopMonitoring s)).error = none) ∧
    (∀ now, (pollTick .noResult now (stopMonitoring s)).pollCount = 1) ∧
    (∀ m now, (pollTick (.errored m) now (stopMonitoring s)).pollCount = 1) := by
  refine ⟨rfl, rfl, rfl, rfl, ?_, ?_, fun _ => rfl, fun _ _ => rfl⟩
  · intro d now; rfl
  · intro co now; cases co <;> exact ⟨rfl, rfl⟩

/-- C4 counterexample: submitForIndexing fails with an HTTP 500 whose
body carries the message field boom; start surfaces boom raw rather than
the service-temporarily-unavailable message, because classification
substring-matches the message text, not the HTTP status. -/
theorem start_500_counterexample :
    (startMonitoring urlA (some []) (.error (errorMessageFor 500
        (str "Internal Server Error") (.jsonObj (some (str "boom")) none none)))
      .noResult 0 stIdle).1.error = some (str "boom") ∧
    some (str "boom") ≠ some serviceUnavailableMsg := by decide

/-- C4 (amended): whenever submitForIndexing fails, start discards the
session entirely (state absent, pollCount 0, loading lowered) and
surfaces the thrown message classified by substring over the message
(404, then 400, then 500, then Network, else the raw message); a bare
HTTP 500 with no usable body fields produces the generic message
containing 500 and hence the service-unavailable text, but an upstream
body message without those digits is surfaced raw. -/
theorem start_submit_failure (url h : List Char) (cf : Option (List Chain))
    (m : List Char) (co : CheckOutcome) (now : Nat) (s : HookState)
    (hE : extractTxHashFromUrl url = some h)
    (hC : chainIdTruthy (getChainIdFromUrl url cf) = true) :
    (startMonitoring url cf (.error m) co now s).1 =
      { monitoringState := none, isLoading := false,
        error := some (classifyStartError m), pollCount := 0 } ∧
    classifyStartError (errorMessageFor 500 (str "Internal Server Error")
        (.jsonObj none none none)) = serviceUnavailableMsg ∧
    (∀ msg, includesL msg (str "404") = false → includesL msg (str "400") = false →
        includesL msg (str "500") = false → includesL msg (str "Network") = false →
        classifyStartError msg = msg) :=
  ⟨startMonitoring_submit_error m co now s hE hC, by decide,
   fun msg h1 h2 h3 h4 => by simp [classifyStartError, h1, h2, h3, h4]⟩

/-- Witness for start_submit_failure on the concrete mainnet URL with a
concrete failing submit. -/
theorem start_submit_failure_witness :
    (startMonitoring urlA (some []) (.error (str "X 500 Y"))
      CheckOutcome.noResult 0 stIdle).1 =
      { monitoringState := none, isLoading := false,
        error := some (classifyStartError (str "X 500 Y")), pollCount := 0 } :=
  (start_submit_failure urlA hashA (some []) (str "X 500 Y")
    CheckOutcome.noResult 0 stIdle (by decide) (by decide)).1

/-- C6 counterexample: a 66-character 0x string with a non-hexadecimal
tail together with the negative chain id -1 passes local validation and
is sent upstream, refuting the claimed rejection of every non-canonical
hash and every non-positive chainId. -/
theorem indexTransaction_counterexample :
    isCanonicalHash zedHash = false ∧
    indexTransaction zedHash (-1) =
      .ok { txHash := zedHash, chainId := -1 } := ⟨by decide, by rfl⟩

/-- C6 (amended): indexTransaction rejects before any network request
exactly when the hash is empty, lacks the 0x prefix or has length other
than 66, or the chainId is 0; hex-ness of the 64-character tail and
positivity of the chainId are not checked. Every canonical hash with a
nonzero integer chainId passes, and the body sent carries both fields as
txHash and chainId. -/
theorem indexTransaction_validation :
    (∀ h c, isCanonicalHash h = true → c ≠ 0 →
        indexTransaction h c = .ok { txHash := h, chainId := c }) ∧
    (∀ h c, h.isEmpty = false → (str "0x").isPrefixOf h = true →
        h.length = 66 → c ≠ 0 →
        indexTransaction h c = .ok { txHash := h, chainId := c }) ∧
    (∀ h c, h.isEmpty = true ∨ (str "0x").isPrefixOf h = false ∨
        h.length ≠ 66 ∨ c = 0 →
        ∃ m, indexTransaction h c = .error m) := by
  refine ⟨fun h c hc hnz => indexTransaction_pass hc hnz, ?_, ?_⟩
  · intro h c h1 h2 h3 h4
    simp [indexTransaction, h1, h2, h3, h4]
  · intro h c hbad
    rcases hbad with h1 | h1 | h1 | h1
    · exact ⟨str "Invalid hash format: " ++ h ++
        str ". Expected 0x followed by 64 hex characters.",
        by simp [indexTransaction, h1]⟩
    · exact ⟨str "Invalid hash format: " ++ h ++
        str ". Expected 0x followed by 64 hex characters.",
        by simp [indexTransaction, h1]⟩
    · have hb : (h.length != 66) = true := bne_iff_ne.mpr h1
      exact ⟨str "Invalid hash format: " ++ h ++
        str ". Expected 0x followed by 64 hex characters.",
        by simp [indexTransaction, hb]⟩
    · cases hfirst : (h.isEmpty || !(str "0x").isPrefixOf h || h.length != 66) with
      | true => exact ⟨str "Invalid hash format: " ++ h ++
          str ". Expected 0x followed by 64 hex characters.",
          by simp [indexTransaction, hfirst]⟩
      | false => exact ⟨str "Invalid chainId: " ++ (Int.repr c).data ++
          str ". Expected a valid integer.",
          by simp [indexTransaction, hfirst, h1]⟩

/-- Witness for indexTransaction_validation at a concrete canonical hash
and chain id 5. -/
theorem indexTransaction_validation_witness :
    indexTransaction hashA 5 = .ok { txHash := hashA, chainId := 5 } :=
  indexTransaction_validation.1 hashA 5 (by decide) (by decide)

/-- C7 counterexample: for a 500 response whose body oops is not JSON,
the thrown message is the generic status message with the raw body
appended, not the raw body text alone as the claim states. -/
theorem errorMessage_counterexample :
    errorMessageFor 500 (str "Internal Server Error") (.notJson (str "oops")) =
      str "API request failed: 500 Internal Server Error - oops" ∧
    claimErrorMessage 500 (str "Internal Server Error") (.notJson (str "oops")) =
      str "oops" ∧
    errorMessageFor 500 (str "Internal Server Error") (.notJson (str "oops")) ≠
      claimErrorMessage 500 (str "Internal Server Error")
        (.notJson (str "oops")) := by decide

/-- C7 (amended): for a non-2xx response the thrown message is selected
as: message field, else error field, else details field (each JS-truthy,
that is present and nonempty), else a JSON string body verbatim; a body
that is not JSON yields the generic <status> <statusText> message with
the raw body text appended rather than the raw body alone; an empty or
unreadable body, or a JSON value without those fields, yields the generic
message; a 2xx response whose body is not JSON is a trivial success
marker, never an error. -/
theorem makeRequest_error_selection :
    (∀ st sx m e d, jsTruthy m = true →
        errorMessageFor st sx (.jsonObj m e d) = m.getD []) ∧
    (∀ st sx m e d, jsTruthy m = false → jsTruthy e = true →
        errorMessageFor st sx (.jsonObj m e d) = e.getD []) ∧
    (∀ st sx m e d, jsTruthy m = false → jsTruthy e = false → jsTruthy d = true →
        errorMessageFor st sx (.jsonObj m e d) = d.getD []) ∧
    (∀ st sx m e d, jsTruthy m = false → jsTruthy e = false → jsTruthy d = false →
        errorMessageFor st sx (.jsonObj m e d) = genericMsg st sx) ∧
    (∀ st sx s2, errorMessageFor st sx (.jsonStr s2) = s2) ∧
    (∀ st sx raw, raw ≠ [] → errorMessageFor st sx (.notJson raw) =
        genericMsg st sx ++ str " - " ++ raw) ∧
    (∀ st sx, errorMessageFor st sx (.notJson []) = genericMsg st sx ∧
        errorMessageFor st sx .unreadable = genericMsg st sx) ∧
    (∀ r : JsResponse Unit, r.ok = true → r.jsonContentType = false →
        makeRequest r = .ok .successMarker) ∧
    (∀ r : JsResponse Unit, r.ok = false →
        makeRequest r = .error (errorMessageFor r.status r.statusText r.errBody)) := by
  refine ⟨?_, ?_, ?_, ?_, ?_, ?_, ?_, ?_, ?_⟩
  · intro st sx m e d h1; simp [errorMessageFor, h1]
  · intro st sx m e d h1 h2; simp [errorMessageFor, h1, h2]
  · intro st sx m e d h1 h2 h3; simp [errorMessageFor, h1, h2, h3]
  · intro st sx m e d h1 h2 h3; simp [errorMessageFor, h1, h2, h3]
  · intro st sx s2; rfl
  · intro st sx raw h1; simp [errorMessageFor, List.isEmpty_iff, h1]
  · intro st sx; exact ⟨rfl, rfl⟩
  · intro r h1 h2; simp [makeRequest, h1, h2]
  · intro r h1; simp [makeRequest, h1]

/-- Witness for makeRequest_error_selection at concrete bodies. -/
theorem makeRequest_error_selection_witness :
    errorMessageFor 404 (str "Not Found")
      (.jsonObj (some (str "m1")) (some (str "e1")) none) = str "m1" ∧
    errorMessageFor 404 (str "Not Found")
      (.jsonObj none (some (str "e1")) none) = str "e1" ∧
    errorMessageFor 404 (str "Not Found") (.notJson (str "raw")) =
      genericMsg 404 (str "Not Found") ++ str " - " ++ str "raw" :=
  ⟨makeRequest_error_selection.1 404 (str "Not Found") (some (str "m1"))
      (some (str "e1")) none (by decide),
   makeRequest_error_selection.2.1 404 (str "Not Found") none
      (some (str "e1")) none (by decide) (by decide),
   makeRequest_error_selection.2.2.2.2.2.1 404 (str "Not Found")
      (str "raw") (by decide)⟩

/-- C5 counterexample: with an empty chain directory (so an empty
supported set) the code still returns 137 for a Mumbai URL straight from
the static table (matched by substring in insertion order, via the
polygonscan.com entry), while the procedure the claim describes, whose
static stage only accepts ids present in the supported set, reports
chain-not-found. -/
theorem chainLookup_counterexample :
    getChainIdFromUrl urlM (some []) = ChainIdResult.num 137 ∧
    specChainIdLookup urlM [] = none := by decide

/-- C5 (amended): getChainIdFromUrl consults the static substring table
first and accepts its result unconditionally, then the /chain/<id>/ path
segment, also unconditionally, and only then the fetched chain list with
per-explorer name/id heuristics (null when the fetch failed); the
directory's supported set never gates the static or path results. -/
theorem chainLookup_order :
    (∀ url cf c, staticLookup url = some c →
        getChainIdFromUrl url cf = ChainIdResult.num c) ∧
    (∀ url cf d, staticLookup url = none → chainPathMatch url = some d →
        getChainIdFromUrl url cf = ChainIdResult.num (Int.ofNat d)) ∧
    (∀ url chains, staticLookup url = none → chainPathMatch url = none →
        getChainIdFromUrl url (some chains) = apiHeuristic url chains) ∧
    (∀ url, staticLookup url = none → chainPathMatch url = none →
        getChainIdFromUrl url none = ChainIdResult.jsNull) := by
  refine ⟨?_, ?_, ?_, ?_⟩
  · intro url cf c h; simp [getChainIdFromUrl, h]
  · intro url cf d h1 h2; simp [getChainIdFromUrl, h1, h2]
  · intro url chains h1 h2; simp [getChainIdFromUrl, h1, h2]
  · intro url h1 h2; simp [getChainIdFromUrl, h1, h2]

/-- Witness for chainLookup_order: the static result for the Mumbai URL
is served without consulting any directory. -/
theorem chainLookup_order_witness :
    getChainIdFromUrl urlM none = ChainIdResult.num 137 :=
  chainLookup_order.1 urlM none 137 (by decide)

/-- C8: extraction is total and case-decided: a trimmed canonical hash is
returned as itself (never null); otherwise the result is the capture of
the first matching explorer pattern in the ordered list; a non-bare input
matching no pattern always yields null; and every returned value has the
canonical 0x + 64 hex shape. -/
theorem extractTxHash_cases (url : List Char) :
    (isCanonicalHash (trimChars url) = true →
        extractTxHashFromUrl url = some (trimChars url)) ∧
    (isCanonicalHash (trimChars url) = false →
        (∀ p ∈ txPatterns, scanMatch p url = none) →
        extractTxHashFromUrl url = none) ∧
    (isCanonicalHash (trimChars url) = false →
        ∀ l1 p l2 h, txPatterns = l1 ++ p :: l2 →
          (∀ q ∈ l1, scanMatch q url = none) → scanMatch p url = some h →
          extractTxHashFromUrl url = some h) ∧
    (∀ h, extractTxHashFromUrl url = some h → isCanonicalHash h = true) := by
  refine ⟨?_, ?_, ?_, fun h he => extract_result_canonical he⟩
  · intro hc; simp [extractTxHashFromUrl, hc]
  · intro hc hall
    have hn : txPatterns.findSome? (fun p => scanMatch p url) = none :=
      List.findSome?_eq_none_iff.mpr hall
    simp [extractTxHashFromUrl, hc, hn]
  · intro hc l1 p l2 h heq hnone hsome
    have h1 : l1.findSome? (fun q => scanMatch q url) = none :=
      List.findSome?_eq_none_iff.mpr hnone
    have h2 : (p :: l2).findSome? (fun q => scanMatch q url) = some h := by
      rw [List.findSome?_cons_of_isSome _ (by simp [hsome])]
      exact hsome
    have hf : txPatterns.findSome? (fun q => scanMatch q url) = some h := by
      rw [heq, List.findSome?_append, h1, h2]
      rfl
    simp [extractTxHashFromUrl, hc, hf]

/-- Witness for extractTxHash_cases: the first pattern captures hashA
from the concrete mainnet URL, a plain word extracts nothing, and a bare
hash is returned as itself. -/
theorem extractTxHash_cases_witness :
    extractTxHashFromUrl urlA = some hashA ∧
    extractTxHashFromUrl (str "hello") = none ∧
    extractTxHashFromUrl hashA = some (trimChars hashA) :=
  ⟨(extractTxHash_cases urlA).2.2.1 (by decide) []
      (str "etherscan.io/tx/")
      [str "sepolia.etherscan.io/tx/",
       str "goerli.etherscan.io/tx/",
       str "polygonscan.com/tx/",
       str "mumbai.polygonscan.com/tx/",
       str "arbiscan.io/tx/",
       str "nova.arbiscan.io/tx/",
       str "testnet.arbiscan.io/tx/",
       str "optimistic.etherscan.io/tx/",
       str "goerli-optimism.etherscan.io/tx/",
       str "basescan.org/tx/",
       str "goerli.basescan.org/tx/",
       str "bscscan.com/tx/",
       str "testnet.bscscan.com/tx/"]
      hashA rfl (by simp) (by decide),
   (extractTxHash_cases (str "hello")).2.1 (by decide) (by decide),
   (extractTxHash_cases hashA).1 (by decide)⟩

/-- C9: for every bare canonical hash input, start recognizes the hash
but can determine no chain: the chain lookup yields null whatever the
directory outcome, start reports the chain-detection error, no session is
created, the poll counter is 0, and indexTransaction is never invoked. -/
theorem start_bare_hash (hash : List Char) (cf : Option (List Chain))
    (sn : Except (List Char) Unit) (co : CheckOutcome) (now : Nat)
    (s : HookState) (hc : isCanonicalHash hash = true) :
    extractTxHashFromUrl hash = some hash ∧
    getChainIdFromUrl hash cf = ChainIdResult.jsNull ∧
    startMonitoring hash cf sn co now s =
      ({ monitoringState := none, isLoading := false,
         error := some chainIdErrMsg, pollCount := 0 }, false) :=
  ⟨extract_of_canonical hc, getChainIdFromUrl_hash hc cf,
   startMonitoring_bare_hash hc cf sn co now s⟩

/-- Witness for start_bare_hash at the concrete canonical hash. -/
theorem start_bare_hash_witness :
    startMonitoring hashA none (Except.ok ()) CheckOutcome.noResult 0 stIdle =
      ({ monitoringState := none, isLoading := false,
         error := some chainIdErrMsg, pollCount := 0 }, false) :=
  (start_bare_hash hashA none (Except.ok ()) CheckOutcome.noResult 0 stIdle
    (by decide)).2.2

/-- C10: the static table matches by substring over the whole URL in
insertion order, so every URL containing etherscan.io resolves to chain
id 1 through getChainIdFromUrl regardless of the directory, and the
sepolia, goerli, optimistic and goerli-optimism etherscan entries of the
static table can never be returned. -/
theorem etherscan_shadowing :
    (∀ url cf, includesL url (str "etherscan.io") = true →
        getChainIdFromUrl url cf = ChainIdResult.num 1) ∧
    (∀ url, staticLookup url ≠ some 11155111 ∧ staticLookup url ≠ some 5 ∧
        staticLookup url ≠ some 10 ∧ staticLookup url ≠ some 420) := by
  constructor
  · intro url cf h
    simp [getChainIdFromUrl, staticLookup_ether h]
  · intro url
    exact ⟨staticLookup_shadowed (by decide)
        (show ∀ e ∈ staticMappings, e.2 = 11155111 →
          e.1 = str "sepolia." ++ str "etherscan.io" by decide),
      staticLookup_shadowed (by decide)
        (show ∀ e ∈ staticMappings, e.2 = 5 →
          e.1 = str "goerli." ++ str "etherscan.io" by decide),
      staticLookup_shadowed (by decide)
        (show ∀ e ∈ staticMappings, e.2 = 10 →
          e.1 = str "optimistic." ++ str "etherscan.io" by decide),
      staticLookup_shadowed (by decide)
        (show ∀ e ∈ staticMappings, e.2 = 420 →
          e.1 = str "goerli-optimism." ++ str "etherscan.io" by decide)⟩

/-- Witness for etherscan_shadowing at the concrete Sepolia URL. -/
theorem etherscan_shadowing_witness :
    getChainIdFromUrl urlS none = ChainIdResult.num 1 ∧
    staticLookup urlS ≠ some 11155111 :=
  ⟨etherscan_shadowing.1 urlS none (by decide), (etherscan_shadowing.2 urlS).1⟩

end RelayIndexer
